import Mathlib

/-!
# Verification of the extreme-temperatures frontend classification logic

Shallow embedding of the severity-classification, zone, headline, retry and
display logic of the `extreme-temperatures` repository
(`frontend/src/components/DistributionCurve.tsx`,
`frontend/src/components/InsightCard.tsx`, `SeasonalRankingTable.tsx`,
the station page and severity display modules), with theorems checking the
natural-language specification against it.

Percentiles (JS `number`s holding fractions like `4.999`) are modelled as
rationals `ℚ`; JS strings are Lean `String`s; a TS `Record` lookup of a
possibly-missing key is modelled as an `Option`-returning function (or a
total function with the JS-`undefined` default made explicit).
-/

namespace ExtremeTemps

/-! ## DistributionCurve.tsx -/

/-- The `DOT_COLORS` record of `DistributionCurve.tsx`: color key → hex color.
A key outside the record is JS `undefined`, modelled as `""`. -/
def DOT_COLORS (k : String) : String :=
  if k = "cold-extreme" then "#1e40af"
  else if k = "cold-unusual" then "#2563eb"
  else if k = "cold-a_bit" then "#93c5fd"
  else if k = "normal" then "#a3a3a3"
  else if k = "warm-a_bit" then "#fbbf24"
  else if k = "warm-unusual" then "#f97316"
  else if k = "warm-extreme" then "#dc2626"
  else ""

/-- `getDotColor` of `DistributionCurve.tsx`: ordered pattern match on the
percentile, first match wins. -/
def getDotColor (percentile : ℚ) : String :=
  if percentile < 5 then DOT_COLORS "cold-extreme"
  else if percentile > 95 then DOT_COLORS "warm-extreme"
  else if percentile ≤ 15 then DOT_COLORS "cold-unusual"
  else if percentile ≥ 85 then DOT_COLORS "warm-unusual"
  else if percentile ≤ 35 then DOT_COLORS "cold-a_bit"
  else if percentile ≥ 65 then DOT_COLORS "warm-a_bit"
  else DOT_COLORS "normal"

/-- Reading a severity label off a dot color: the `DOT_COLORS` table read
backwards (its seven hex values are pairwise distinct). -/
def severityOfColor (c : String) : String :=
  if c = "#1e40af" ∨ c = "#dc2626" then "extreme"
  else if c = "#2563eb" ∨ c = "#f97316" then "unusual"
  else if c = "#93c5fd" ∨ c = "#fbbf24" then "a_bit"
  else "normal"

/-- Reading the direction off a dot color: `none` for the normal (directionless)
color, the `DOT_COLORS` table read backwards otherwise. -/
def directionOfColor (c : String) : Option String :=
  if c = "#1e40af" ∨ c = "#2563eb" ∨ c = "#93c5fd" then some "cold"
  else if c = "#dc2626" ∨ c = "#f97316" ∨ c = "#fbbf24" then some "warm"
  else none

/-- Severity of a percentile, as classified by `getDotColor`. -/
def dotSeverity (p : ℚ) : String := severityOfColor (getDotColor p)

/-- Direction of a percentile, as classified by `getDotColor`. -/
def dotDirection (p : ℚ) : Option String := directionOfColor (getDotColor p)

/-- C1: The severity classification of a percentile p follows the ordered
table with first match wins: p < 5 is extreme cold, p > 95 is extreme warm,
p ≤ 15 is unusual cold, p ≥ 85 is unusual warm, p ≤ 35 is a_bit cold,
p ≥ 65 is a_bit warm, otherwise normal; in particular p = 5.0 and p = 95.0
classify as unusual (not extreme), while p = 4.999 and p = 95.001 classify
as extreme. -/
theorem getDotColor_follows_severity_table (p : ℚ) :
    (p < 5 → dotSeverity p = "extreme" ∧ dotDirection p = some "cold")
    ∧ (95 < p → dotSeverity p = "extreme" ∧ dotDirection p = some "warm")
    ∧ (5 ≤ p → p ≤ 15 → dotSeverity p = "unusual" ∧ dotDirection p = some "cold")
    ∧ (85 ≤ p → p ≤ 95 → dotSeverity p = "unusual" ∧ dotDirection p = some "warm")
    ∧ (15 < p → p ≤ 35 → dotSeverity p = "a_bit" ∧ dotDirection p = some "cold")
    ∧ (65 ≤ p → p < 85 → dotSeverity p = "a_bit" ∧ dotDirection p = some "warm")
    ∧ (35 < p → p < 65 → dotSeverity p = "normal" ∧ dotDirection p = none)
    ∧ (dotSeverity 5 = "unusual" ∧ dotSeverity (4999/1000) = "extreme"
       ∧ dotSeverity 95 = "unusual" ∧ dotSeverity (95001/1000) = "extreme") := by
  refine ⟨?t1, ?t2, ?t3, ?t4, ?t5, ?t6, ?t7, by decide, ?b1, by decide, ?b2⟩
  case b1 =>
    simp only [dotSeverity, getDotColor]
    rw [if_pos (by norm_num)]
    decide
  case b2 =>
    simp only [dotSeverity, getDotColor]
    rw [if_neg (by norm_num), if_pos (by norm_num)]
    decide
  all_goals
    intros
    simp only [dotSeverity, dotDirection, getDotColor]
    split_ifs <;> first | decide | linarith

/-- Witness for C1 at concrete percentiles `10` (unusual cold zone). -/
theorem getDotColor_follows_severity_table_witness :
    dotSeverity 10 = "unusual" ∧ dotDirection 10 = some "cold" :=
  (getDotColor_follows_severity_table 10).2.2.1 (by norm_num) (by norm_num)

/-- Swapping the cold/warm direction labels. -/
def swapDirection (d : String) : String :=
  if d = "cold" then "warm" else if d = "warm" then "cold" else d

set_option maxHeartbeats 1000000 in
/-- C2: For every percentile p in [0, 100], classifying p and classifying
100 − p yield the same severity level with the direction swapped between
cold and warm (the classification is symmetric around 50). -/
theorem getDotColor_symmetric_around_50 (p : ℚ) (h0 : 0 ≤ p) (h1 : p ≤ 100) :
    dotSeverity (100 - p) = dotSeverity p
    ∧ dotDirection (100 - p) = (dotDirection p).map swapDirection := by
  constructor <;>
    · simp only [dotSeverity, dotDirection, getDotColor]
      split_ifs <;> first | rfl | linarith

/-- Witness for C2 at the concrete percentile `5`. -/
theorem getDotColor_symmetric_around_50_witness :
    dotSeverity 95 = dotSeverity 5
    ∧ dotDirection 95 = (dotDirection 5).map swapDirection := by
  have h := getDotColor_symmetric_around_50 5 (by norm_num) (by norm_num)
  rw [show (100 : ℚ) - 5 = 95 by norm_num] at h
  exact h

/-- The ordered severity scale of the spec:
insufficient_data < normal < a_bit < unusual < extreme. -/
def severityRank (s : String) : ℕ :=
  if s = "insufficient_data" then 0
  else if s = "normal" then 1
  else if s = "a_bit" then 2
  else if s = "unusual" then 3
  else if s = "extreme" then 4
  else 0

/-- Severity of a percentile as a function of its distance from 50 only. -/
def distanceRank (d : ℚ) : ℕ :=
  if 45 < d then 4 else if 35 ≤ d then 3 else if 15 ≤ d then 2 else 1

/-- The `getDotColor` severity rank is a function of |p − 50| alone. -/
theorem severityRank_dotSeverity_eq (p : ℚ) :
    severityRank (dotSeverity p) = distanceRank |p - 50| := by
  rcases le_total p 50 with hp | hp
  · rw [abs_of_nonpos (by linarith)]
    simp only [dotSeverity, getDotColor, distanceRank]
    split_ifs <;> first | decide | linarith
  · rw [abs_of_nonneg (by linarith)]
    simp only [dotSeverity, getDotColor, distanceRank]
    split_ifs <;> first | decide | linarith

/-- `distanceRank` is monotone. -/
theorem distanceRank_mono {d₁ d₂ : ℚ} (h : d₂ ≤ d₁) :
    distanceRank d₂ ≤ distanceRank d₁ := by
  simp only [distanceRank]
  split_ifs <;> first | (exfalso; linarith) | norm_num

/-- C3: For all percentiles p₁, p₂ in [0, 100], if |p₁ − 50| > |p₂ − 50| then
the severity assigned to p₁ is at least as extreme as the severity assigned
to p₂, under the severity order
insufficient_data < normal < a_bit < unusual < extreme. -/
theorem dotSeverity_monotone_in_distance (p₁ p₂ : ℚ)
    (h₁ : 0 ≤ p₁) (h₁' : p₁ ≤ 100) (h₂ : 0 ≤ p₂) (h₂' : p₂ ≤ 100)
    (h : |p₂ - 50| < |p₁ - 50|) :
    severityRank (dotSeverity p₂) ≤ severityRank (dotSeverity p₁) := by
  rw [severityRank_dotSeverity_eq, severityRank_dotSeverity_eq]
  exact distanceRank_mono h.le

/-- Witness for C3 at p₁ = 2 (extreme), p₂ = 50 (normal). -/
theorem dotSeverity_monotone_in_distance_witness :
    severityRank (dotSeverity 50) ≤ severityRank (dotSeverity 2) := by
  refine dotSeverity_monotone_in_distance 2 50 (by norm_num) (by norm_num)
    (by norm_num) (by norm_num) ?_
  rw [show (50 : ℚ) - 50 = 0 by norm_num, show (2 : ℚ) - 50 = -48 by norm_num]
  rw [abs_zero, abs_neg]
  norm_num

/-! ## The Insight data model (fields used by the frontend components) -/

/-- The fields of the `Insight` interface (`frontend/src/types/index.ts`)
read by the components verified here. -/
structure Insight where
  severity : String
  percentile : Option ℚ
  window_days : ℕ
deriving DecidableEq

/-! ## Direction logic (`InsightCard` and the station page) -/

/-- `isCold` of `InsightCard`:
`insight.percentile != null && insight.percentile <= 50`
(identical in `frontend/src/components/InsightCard.tsx` and in the
`InsightCard` of `src/unnamed/part_006`). -/
def insightIsCold (insight : Insight) : Bool :=
  insight.percentile.any fun p => decide (p ≤ 50)

/-- `direction` of `InsightCard`: `isCold ? "cold" : "warm"`. -/
def insightCardDirection (insight : Insight) : String :=
  if insightIsCold insight then "cold" else "warm"

/-- The direction passed to `fetchExtremesRankings` by `StationPage.load`
(`src/unnamed/part_004`):
`insightData.percentile != null && insightData.percentile <= 50 ? "cold" : "warm"`. -/
def extremesFetchDirection (insight : Insight) : String :=
  if insight.percentile.any (fun p => decide (p ≤ 50)) then "cold" else "warm"

/-- The direction key used by `getTodaySeverityDisplay` (`src/unnamed/part_004`):
`insight.percentile != null && insight.percentile <= 50 ? "cold" : "warm"`. -/
def todayDirection (insight : Insight) : String :=
  if insight.percentile.any (fun p => decide (p ≤ 50)) then "cold" else "warm"

/-- C4: For every Insight with a non-null percentile p, the direction used for
classification and display is cold if p ≤ 50 and warm otherwise, for every
severity level including normal (the direction computation never looks at the
severity), at each of the three code sites computing it. -/
theorem insight_direction_cold_iff_le_50 (insight : Insight) (p : ℚ)
    (hp : insight.percentile = some p) :
    insightCardDirection insight = (if p ≤ 50 then "cold" else "warm")
    ∧ extremesFetchDirection insight = (if p ≤ 50 then "cold" else "warm")
    ∧ todayDirection insight = (if p ≤ 50 then "cold" else "warm") := by
  refine ⟨?_, ?_, ?_⟩ <;>
    · simp only [insightCardDirection, extremesFetchDirection, todayDirection,
        insightIsCold, hp, Option.any_some]
      by_cases h : p ≤ 50 <;> simp [h]

/-- Witness for C4: a normal-severity insight at percentile 50 is cold. -/
theorem insight_direction_cold_iff_le_50_witness :
    insightCardDirection ⟨"normal", some 50, 7⟩ = "cold" := by
  have h := (insight_direction_cold_iff_le_50 ⟨"normal", some 50, 7⟩ 50 rfl).1
  simpa using h

/-! ## The percentile scenario (spec §8) -/

/-- Modelled from the spec: the Percentile Ranker (§4.3) belongs to the backend
engine, which is not among the provided sources; only its consumers are.
`percentile = 100 × (count(r ∈ R : r < v) + 0.5 × count(r ∈ R : r = v)) / n`,
`null` when `n = 0`. -/
def midRankPercentile (v : ℚ) (R : List ℚ) : Option ℚ :=
  if R.length = 0 then none
  else some (100 * (((R.countP fun r => decide (r < v)) : ℚ)
    + (1 / 2 : ℚ) * ((R.countP fun r => decide (r = v)) : ℚ)) / (R.length : ℚ))

/-- The sample of the spec §8 scenario: 30 aligned yearly rolling-window
values of which the current one is the 2nd coldest (modelled as the
values 0, 1, …, 29 with current value 1). -/
def scenarioSample : List ℚ := (List.range 30).map fun i => (i : ℚ)

/-- C5 counterexample: feeding the percentile 95.0 of the spec's scenario into
the code's classification yields severity unusual but direction warm, not
cold: the claim's direction is false at percentile 95.0. -/
theorem scenario_percentile_95_classifies_warm :
    dotSeverity 95 = "unusual"
    ∧ dotDirection 95 = some "warm"
    ∧ dotDirection 95 ≠ some "cold"
    ∧ insightCardDirection ⟨"unusual", some 95, 7⟩ = "warm"
    ∧ insightCardDirection ⟨"unusual", some 95, 7⟩ ≠ "cold"
    ∧ extremesFetchDirection ⟨"unusual", some 95, 7⟩ = "warm" := by
  decide

/-- C5 amended: under the code's percentile convention (fraction of the
reference sample below the value, mid-rank ties), the 2nd-coldest value out
of 30 years has percentile 100 × 1.5 / 30 = 5.0, not 95.0, and that
percentile classifies as severity unusual (boundary case, not extreme) with
direction cold. -/
theorem scenario_second_coldest_unusual_cold :
    midRankPercentile 1 scenarioSample = some 5
    ∧ dotSeverity 5 = "unusual"
    ∧ dotDirection 5 = some "cold"
    ∧ insightCardDirection ⟨"unusual", some 5, 7⟩ = "cold"
    ∧ todayDirection ⟨"unusual", some 5, 7⟩ = "cold" := by
  refine ⟨?_, by decide, by decide, by decide, by decide⟩
  have hcount₁ : (scenarioSample.countP fun r => decide (r < 1)) = 1 := by decide
  have hcount₂ : (scenarioSample.countP fun r => decide (r = 1)) = 1 := by decide
  have hlen : scenarioSample.length = 30 := by decide
  rw [midRankPercentile, hlen, if_neg (by norm_num), hcount₁, hcount₂]
  norm_num

/-! ## The InsightCard headline (`src/unnamed/part_006`) -/

/-- `periodLabel` of the `InsightCard` module. -/
def periodLabel (windowDays : ℕ) : String :=
  if windowDays = 1 then "day"
  else if windowDays ≤ 3 then toString windowDays ++ " days"
  else if windowDays ≤ 7 then "week"
  else if windowDays ≤ 14 then "two weeks"
  else if windowDays ≤ 30 then "month"
  else if windowDays ≤ 90 then "quarter"
  else "period"

/-- `daysLabel` of the `InsightCard` module. -/
def daysLabel (windowDays : ℕ) : String :=
  if windowDays = 1 then "day" else toString windowDays ++ " days"

/-- `COLD_STYLES` of `src/unnamed/part_006`: severity → (text, intensity). -/
def COLD_STYLES (severity : String) : Option (String × String) :=
  if severity = "extreme" then some ("text-blue-700", "extremely ")
  else if severity = "unusual" then some ("text-blue-600", "unusually ")
  else if severity = "a_bit" then some ("text-blue-400", "a bit ")
  else none

/-- `WARM_STYLES` of `src/unnamed/part_006`: severity → (text, intensity). -/
def WARM_STYLES (severity : String) : Option (String × String) :=
  if severity = "extreme" then some ("text-red-700", "extremely ")
  else if severity = "unusual" then some ("text-orange-600", "unusually ")
  else if severity = "a_bit" then some ("text-amber-400", "a bit ")
  else none

/-- The fields of the `SeasonalRanking` payload read by `InsightCard`. -/
structure SeasonalRankingMeta where
  current_rank : ℕ
  total_years : ℕ
deriving DecidableEq

/-- The four shapes the `InsightCard` headline can take, with the text pieces
interpolated into each. -/
inductive Headline where
  | record (recordDirection period : String) (totalYears : ℕ)
  | nearNormal (days : String)
  | aBit (days coloredPart : String)
  | generic (days coloredPart : String)
deriving DecidableEq

/-- `isSeasonalRecord` of `InsightCard` (`src/unnamed/part_006`):
`seasonalRanking != null && current_rank === 1 && total_years >= 10`. -/
def isSeasonalRecord (seasonalRanking : Option SeasonalRankingMeta) : Bool :=
  match seasonalRanking with
  | some sr => decide (sr.current_rank = 1) && decide (10 ≤ sr.total_years)
  | none => false

/-- The headline branch of `InsightCard` (`src/unnamed/part_006`). -/
def insightCardHeadline (insight : Insight)
    (seasonalRanking : Option SeasonalRankingMeta) : Headline :=
  let days := daysLabel insight.window_days
  let period := periodLabel insight.window_days
  let isCold := insightIsCold insight
  let direction := if isCold then "cold" else "warm"
  let style := (if isCold then COLD_STYLES else WARM_STYLES) insight.severity
  if isSeasonalRecord seasonalRanking && style.isSome then
    Headline.record (if isCold then "coldest" else "warmest") period
      ((seasonalRanking.map SeasonalRankingMeta.total_years).getD 0)
  else if insight.severity = "normal" ∨ insight.severity = "insufficient_data"
      ∨ style.isNone then
    Headline.nearNormal days
  else if insight.severity = "a_bit" then
    Headline.aBit days ("a bit " ++ (if isCold then "colder" else "warmer"))
  else
    Headline.generic days ((style.map Prod.snd).getD "" ++ direction)

/-- A rank-1, 10-year seasonal ranking paired with a normal-severity insight:
the concrete input on which C6 fails. -/
def c6NormalInsight : Insight := ⟨"normal", some 50, 7⟩

/-- C6 counterexample: with current_rank = 1 and total_years = 10 (at the
minimum-years threshold) but severity normal, the headline is the near-normal
one, not the record framing: the claim as stated is false here. -/
theorem record_framing_skipped_for_normal_severity :
    insightCardHeadline c6NormalInsight (some ⟨1, 10⟩) = Headline.nearNormal "7 days"
    ∧ Headline.nearNormal "7 days" ≠ Headline.record "coldest" "week" 10 := by
  decide

/-- C6 amended: whenever the seasonal ranking has current_rank = 1 and
total_years ≥ 10 and the insight's severity is one with an intensity style
(a_bit, unusual or extreme), the headline uses the record framing
(coldest/warmest period for this time of year in N years) instead of the
generic severity framing. -/
theorem record_framing_for_styled_severities (insight : Insight)
    (sr : SeasonalRankingMeta)
    (hsev : insight.severity = "a_bit" ∨ insight.severity = "unusual"
      ∨ insight.severity = "extreme")
    (hrank : sr.current_rank = 1) (hyears : 10 ≤ sr.total_years) :
    insightCardHeadline insight (some sr) =
      Headline.record (if insightIsCold insight then "coldest" else "warmest")
        (periodLabel insight.window_days) sr.total_years := by
  have hdec : decide (10 ≤ sr.total_years) = true := decide_eq_true hyears
  simp only [insightCardHeadline, isSeasonalRecord, hrank, hdec]
  rcases hsev with h | h | h <;> rw [h] <;>
    cases hcold : insightIsCold insight <;>
      simp [COLD_STYLES, WARM_STYLES, hcold]

/-- Witness for C6 amended: an unusually-warm rank-1 insight over 12 years
gets the warmest-week record headline. -/
theorem record_framing_for_styled_severities_witness :
    insightCardHeadline ⟨"unusual", some 95, 7⟩ (some ⟨1, 12⟩) =
      Headline.record "warmest" "week" 12 := by
  have h := record_framing_for_styled_severities ⟨"unusual", some 95, 7⟩ ⟨1, 12⟩
    (Or.inr (Or.inl rfl)) rfl (by norm_num)
  simpa using h

/-! ## The station-page load retry loop (`src/unnamed/part_004`)

Dates are modelled by their day offset from today: `daysAgo i ↦ i`, so a
larger offset is an earlier date. The insight fetch is an oracle
`ℕ → Option α` (`none` models a rejected `fetchInsight` promise). -/

/-- The retry loop body of `StationPage.load`: try the offsets in order,
keep the first success together with the offset adopted as
`workingEndDate`. -/
def tryDates {α : Type} (fetch : ℕ → Option α) : List ℕ → Option (α × ℕ)
  | [] => none
  | i :: rest =>
    match fetch i with
    | some insightData => some (insightData, i)
    | none => tryDates fetch rest

/-- The candidate end-date offsets of the rolling-window insight loop of
`StationPage.load` (`src/unnamed/part_004`): `for (let i = 1; i <= 7; i++)`,
starting from yesterday, progressively earlier, up to 7 days back. -/
def candidateOffsets : List ℕ := [1, 2, 3, 4, 5, 6, 7]

/-- The rolling-window insight phase of `StationPage.load`
(`src/unnamed/part_004`): on success the adopted `workingEndDate` is passed
to both `fetchSeries` and `fetchSeasonalRankings`; if every candidate fails
the page shows the no-data error. The tuple holds the insight, the working
end date, and the two subsequent query results. -/
def stationPageLoadInsight {α β γ : Type} (fetchIns : ℕ → Option α)
    (fetchSeries : ℕ → β) (fetchSeasonal : ℕ → γ) :
    Except String (α × ℕ × β × γ) :=
  match tryDates fetchIns candidateOffsets with
  | none => Except.error "No recent data available for this station"
  | some (insightData, workingEndDate) =>
    Except.ok (insightData, workingEndDate,
      fetchSeries workingEndDate, fetchSeasonal workingEndDate)

/-- `tryDates` fails exactly when every candidate fails. -/
theorem tryDates_eq_none_iff {α : Type} (fetch : ℕ → Option α) (l : List ℕ) :
    tryDates fetch l = none ↔ ∀ i ∈ l, fetch i = none := by
  induction l with
  | nil => simp [tryDates]
  | cons j rest ih =>
    simp only [tryDates]
    cases hj : fetch j <;> simp [hj, ih]

/-- `tryDates` returns the first success. -/
theorem tryDates_first_success {α : Type} (fetch : ℕ → Option α)
    (l₁ l₂ : List ℕ) (j : ℕ) (a : α)
    (hfail : ∀ i ∈ l₁, fetch i = none) (hj : fetch j = some a) :
    tryDates fetch (l₁ ++ j :: l₂) = some (a, j) := by
  induction l₁ with
  | nil => simp [tryDates, hj]
  | cons i rest ih =>
    have hi : fetch i = none := hfail i (by simp)
    simp only [List.cons_append, tryDates, hi]
    exact ih fun k hk => hfail k (by simp [hk])

/-- C7: When the insight query fails for the requested end_date, the caller
retries with progressively earlier end_date values (up to 7 days back),
adopts the first end_date that succeeds as the working end date for the
subsequent series and seasonal-ranking queries, and reports a no-data error
only if every candidate end_date fails. -/
theorem stationPageLoad_retries_and_adopts_first_success {α β γ : Type}
    (fetchIns : ℕ → Option α) (fetchSeries : ℕ → β) (fetchSeasonal : ℕ → γ) :
    (stationPageLoadInsight fetchIns fetchSeries fetchSeasonal =
        Except.error "No recent data available for this station"
      ↔ ∀ i ∈ candidateOffsets, fetchIns i = none)
    ∧ (∀ j a, j ∈ candidateOffsets → fetchIns j = some a →
        (∀ i ∈ candidateOffsets, i < j → fetchIns i = none) →
        stationPageLoadInsight fetchIns fetchSeries fetchSeasonal =
          Except.ok (a, j, fetchSeries j, fetchSeasonal j)) := by
  constructor
  · rw [← tryDates_eq_none_iff fetchIns candidateOffsets]
    unfold stationPageLoadInsight
    cases h : tryDates fetchIns candidateOffsets with
    | none => simp [h]
    | some r => simp [h]
  · intro j a hj hja hfirst
    have hsplit : ∃ l₁ l₂, candidateOffsets = l₁ ++ j :: l₂
        ∧ ∀ i ∈ l₁, i < j := by
      simp only [candidateOffsets, List.mem_cons, List.not_mem_nil, or_false] at hj
      rcases hj with h | h | h | h | h | h | h <;> subst h
      · exact ⟨[], [2, 3, 4, 5, 6, 7], rfl, by simp⟩
      · exact ⟨[1], [3, 4, 5, 6, 7], rfl, by intro i hi; fin_cases hi <;> norm_num⟩
      · exact ⟨[1, 2], [4, 5, 6, 7], rfl, by intro i hi; fin_cases hi <;> norm_num⟩
      · exact ⟨[1, 2, 3], [5, 6, 7], rfl, by intro i hi; fin_cases hi <;> norm_num⟩
      · exact ⟨[1, 2, 3, 4], [6, 7], rfl, by intro i hi; fin_cases hi <;> norm_num⟩
      · exact ⟨[1, 2, 3, 4, 5], [7], rfl, by intro i hi; fin_cases hi <;> norm_num⟩
      · exact ⟨[1, 2, 3, 4, 5, 6], [], rfl, by intro i hi; fin_cases hi <;> norm_num⟩
    obtain ⟨l₁, l₂, heq, hlt⟩ := hsplit
    have hfail : ∀ i ∈ l₁, fetchIns i = none := by
      intro i hi
      exact hfirst i (heq ▸ List.mem_append_left _ hi) (hlt i hi)
    unfold stationPageLoadInsight
    rw [heq, tryDates_first_success fetchIns l₁ l₂ j a hfail hja]

/-- Witness for C7: with a fetch that first succeeds 3 days back, the page
adopts offset 3 for the series and seasonal queries. -/
theorem stationPageLoad_retries_witness :
    stationPageLoadInsight
        (fun i => if i = 3 then some 42 else none)
        (fun n : ℕ => n) (fun n : ℕ => n + 1) =
      Except.ok (42, 3, 3, 4) := by
  have h := (stationPageLoad_retries_and_adopts_first_success
    (fun i => if i = 3 then some (42 : ℕ) else none)
    (fun n : ℕ => n) (fun n : ℕ => n + 1)).2 3 42
    (by decide) (by decide) (by decide)
  exact h

/-! ## `getVisibleIndices` (`SeasonalRankingTable.tsx`, identical in the
`ExtremesRankingTable` of `src/unnamed/part_005`) -/

/-- The one field of a ranking entry that `getVisibleIndices` reads:
its parameter type is literally `{ is_current: boolean }[]`. -/
structure RankingRow where
  is_current : Bool
deriving DecidableEq

/-- `getVisibleIndices` of `SeasonalRankingTable.tsx`: the set of row indices
shown. Collapsed, it is the first `min 10 length` indices plus a window of
2 around the first current row (`findIndex` returning −1 is modelled by the
`none` case); `Math.max(0, currentIdx - 2)` is ℕ truncated subtraction. -/
def getVisibleIndices (rankings : List RankingRow) (expanded : Bool) :
    Finset ℕ :=
  if expanded then Finset.range rankings.length
  else
    let indices := Finset.range (min 10 rankings.length)
    match rankings.findIdx? (fun r => r.is_current) with
    | some currentIdx =>
      indices ∪ Finset.Icc (currentIdx - 2)
        (min (rankings.length - 1) (currentIdx + 2))
    | none => indices

/-- C9: For every list of ranking entries and every expanded flag,
getVisibleIndices returns a subset of the valid indices 0..length−1; when
expanded it returns every index, and when not expanded it contains the first
min(10, length) indices and every index within 2 positions of the first entry
with is_current = true when such an entry exists — so the current entry is
always visible in the collapsed table. -/
theorem getVisibleIndices_spec (rankings : List RankingRow) (expanded : Bool) :
    (∀ i ∈ getVisibleIndices rankings expanded, i < rankings.length)
    ∧ (expanded = true →
        getVisibleIndices rankings expanded = Finset.range rankings.length)
    ∧ (expanded = false →
        Finset.range (min 10 rankings.length) ⊆ getVisibleIndices rankings expanded)
    ∧ (expanded = false → ∀ c, rankings.findIdx? (fun r => r.is_current) = some c →
        (∀ i, i < rankings.length → c ≤ i + 2 → i ≤ c + 2 →
          i ∈ getVisibleIndices rankings expanded)
        ∧ c ∈ getVisibleIndices rankings expanded) := by
  refine ⟨?_, ?_, ?_, ?_⟩
  · intro i hi
    unfold getVisibleIndices at hi
    split at hi
    · simpa using hi
    · rcases hfind : rankings.findIdx? (fun r => r.is_current) with _ | c <;>
        rw [hfind] at hi
      · simp only [Finset.mem_range] at hi
        omega
      · have hc : c < rankings.length :=
          (List.findIdx?_eq_some_iff_findIdx_eq.mp hfind).1
        simp only [Finset.mem_union, Finset.mem_range, Finset.mem_Icc] at hi
        omega
  · intro h
    simp [getVisibleIndices, h]
  · intro h
    simp only [getVisibleIndices, h, if_false, Bool.false_eq_true]
    rcases hfind : rankings.findIdx? (fun r => r.is_current) with _ | c <;>
      simp only [hfind]
    · exact Finset.Subset.refl _
    · exact Finset.subset_union_left
  · intro h c hfind
    have hc : c < rankings.length :=
      (List.findIdx?_eq_some_iff_findIdx_eq.mp hfind).1
    have hmem : ∀ i, i < rankings.length → c ≤ i + 2 → i ≤ c + 2 →
        i ∈ getVisibleIndices rankings expanded := by
      intro i hilen hcl hcu
      simp only [getVisibleIndices, h, if_false, Bool.false_eq_true, hfind]
      simp only [Finset.mem_union, Finset.mem_range, Finset.mem_Icc]
      right
      omega
    exact ⟨hmem, hmem c hc (by omega) (by omega)⟩

/-- Witness for C9 on a concrete collapsed table: 12 rows with the current
one at index 11 — row 11 is visible despite being outside the first ten. -/
theorem getVisibleIndices_spec_witness :
    (11 : ℕ) ∈ getVisibleIndices
      (List.replicate 11 ⟨false⟩ ++ [⟨true⟩]) false := by
  have h := (getVisibleIndices_spec (List.replicate 11 ⟨false⟩ ++ [⟨true⟩]) false).2.2.2
    rfl 11 (by decide)
  exact h.2

/-! ## The `ZONES` strip of `DistributionCurve.tsx` -/

/-- One entry of the `ZONES` array (`from`/`to` are Lean keywords, so the
fields are `zfrom`/`zto`). -/
structure Zone where
  zfrom : ℚ
  zto : ℚ
  label : String
  bg : String
  text : String
deriving DecidableEq

/-- The `ZONES` array of `DistributionCurve.tsx`. -/
def ZONES : List Zone :=
  [⟨0, 5, "Extremely Cold", "bg-blue-800", "text-blue-800"⟩,
   ⟨5, 15, "Unusually Cold", "bg-blue-500", "text-blue-600"⟩,
   ⟨15, 35, "A Bit Colder", "bg-sky-200", "text-sky-500"⟩,
   ⟨35, 65, "Normal", "bg-neutral-200", "text-neutral-400"⟩,
   ⟨65, 85, "A Bit Warmer", "bg-amber-200", "text-amber-600"⟩,
   ⟨85, 95, "Unusually Warm", "bg-orange-400", "text-orange-600"⟩,
   ⟨95, 100, "Extremely Warm", "bg-red-500", "text-red-600"⟩]

/-- The correspondence between a zone label and the `DOT_COLORS` key of the
same severity and direction. -/
def zoneColorKey (label : String) : String :=
  if label = "Extremely Cold" then "cold-extreme"
  else if label = "Unusually Cold" then "cold-unusual"
  else if label = "A Bit Colder" then "cold-a_bit"
  else if label = "Normal" then "normal"
  else if label = "A Bit Warmer" then "warm-a_bit"
  else if label = "Unusually Warm" then "warm-unusual"
  else if label = "Extremely Warm" then "warm-extreme"
  else ""

/-- C8: The two severity-zone definitions in DistributionCurve agree: for
every percentile p in [0, 100] that is not a zone boundary
(0, 5, 15, 35, 65, 85, 95, 100), the color returned by getDotColor(p)
corresponds to the label of the unique ZONES entry whose interval
contains p. -/
theorem zones_agree_with_getDotColor (p : ℚ) (h0 : 0 ≤ p) (h1 : p ≤ 100)
    (hb : p ≠ 0 ∧ p ≠ 5 ∧ p ≠ 15 ∧ p ≠ 35 ∧ p ≠ 65 ∧ p ≠ 85 ∧ p ≠ 95 ∧ p ≠ 100) :
    ∃ z ∈ ZONES, (z.zfrom < p ∧ p < z.zto)
      ∧ (∀ z' ∈ ZONES, z'.zfrom < p ∧ p < z'.zto → z' = z)
      ∧ getDotColor p = DOT_COLORS (zoneColorKey z.label) := by
  obtain ⟨hb0, hb5, hb15, hb35, hb65, hb85, hb95, hb100⟩ := hb
  by_cases h5 : p < 5
  · refine ⟨⟨0, 5, "Extremely Cold", "bg-blue-800", "text-blue-800"⟩, by decide,
      ⟨lt_of_le_of_ne h0 (Ne.symm hb0), h5⟩, ?_, ?_⟩
    · intro z' hz'
      simp only [ZONES, List.mem_cons, List.not_mem_nil, or_false] at hz'
      rcases hz' with h | h | h | h | h | h | h <;> subst h <;> intro hc <;>
        first
        | rfl
        | (exfalso; obtain ⟨hca, hcb⟩ := hc; dsimp only at hca hcb; linarith)
    · unfold getDotColor
      rw [if_pos h5]
      decide
  by_cases h15 : p < 15
  · refine ⟨⟨5, 15, "Unusually Cold", "bg-blue-500", "text-blue-600"⟩, by decide,
      ⟨lt_of_le_of_ne (not_lt.mp h5) (Ne.symm hb5), h15⟩, ?_, ?_⟩
    · intro z' hz'
      simp only [ZONES, List.mem_cons, List.not_mem_nil, or_false] at hz'
      rcases hz' with h | h | h | h | h | h | h <;> subst h <;> intro hc <;>
        first
        | rfl
        | (exfalso; obtain ⟨hca, hcb⟩ := hc; dsimp only at hca hcb; linarith)
    · unfold getDotColor
      rw [if_neg h5, if_neg (by linarith), if_pos (by linarith)]
      decide
  by_cases h35 : p < 35
  · refine ⟨⟨15, 35, "A Bit Colder", "bg-sky-200", "text-sky-500"⟩, by decide,
      ⟨lt_of_le_of_ne (not_lt.mp h15) (Ne.symm hb15), h35⟩, ?_, ?_⟩
    · intro z' hz'
      simp only [ZONES, List.mem_cons, List.not_mem_nil, or_false] at hz'
      rcases hz' with h | h | h | h | h | h | h <;> subst h <;> intro hc <;>
        first
        | rfl
        | (exfalso; obtain ⟨hca, hcb⟩ := hc; dsimp only at hca hcb; linarith)
    · have h15' : 15 < p := lt_of_le_of_ne (not_lt.mp h15) (Ne.symm hb15)
      unfold getDotColor
      rw [if_neg h5, if_neg (by linarith), if_neg (by linarith), if_neg (by linarith),
        if_pos (by linarith)]
      decide
  by_cases h65 : p < 65
  · refine ⟨⟨35, 65, "Normal", "bg-neutral-200", "text-neutral-400"⟩, by decide,
      ⟨lt_of_le_of_ne (not_lt.mp h35) (Ne.symm hb35), h65⟩, ?_, ?_⟩
    · intro z' hz'
      simp only [ZONES, List.mem_cons, List.not_mem_nil, or_false] at hz'
      rcases hz' with h | h | h | h | h | h | h <;> subst h <;> intro hc <;>
        first
        | rfl
        | (exfalso; obtain ⟨hca, hcb⟩ := hc; dsimp only at hca hcb; linarith)
    · have h35' : 35 < p := lt_of_le_of_ne (not_lt.mp h35) (Ne.symm hb35)
      unfold getDotColor
      rw [if_neg h5, if_neg (by linarith), if_neg (by linarith), if_neg (by linarith),
        if_neg (by linarith), if_neg (by linarith)]
      decide
  by_cases h85 : p < 85
  · refine ⟨⟨65, 85, "A Bit Warmer", "bg-amber-200", "text-amber-600"⟩, by decide,
      ⟨lt_of_le_of_ne (not_lt.mp h65) (Ne.symm hb65), h85⟩, ?_, ?_⟩
    · intro z' hz'
      simp only [ZONES, List.mem_cons, List.not_mem_nil, or_false] at hz'
      rcases hz' with h | h | h | h | h | h | h <;> subst h <;> intro hc <;>
        first
        | rfl
        | (exfalso; obtain ⟨hca, hcb⟩ := hc; dsimp only at hca hcb; linarith)
    · unfold getDotColor
      rw [if_neg h5, if_neg (by linarith), if_neg (by linarith), if_neg (by linarith),
        if_neg (by linarith), if_pos (by linarith)]
      decide
  by_cases h95 : p < 95
  · refine ⟨⟨85, 95, "Unusually Warm", "bg-orange-400", "text-orange-600"⟩, by decide,
      ⟨lt_of_le_of_ne (not_lt.mp h85) (Ne.symm hb85), h95⟩, ?_, ?_⟩
    · intro z' hz'
      simp only [ZONES, List.mem_cons, List.not_mem_nil, or_false] at hz'
      rcases hz' with h | h | h | h | h | h | h <;> subst h <;> intro hc <;>
        first
        | rfl
        | (exfalso; obtain ⟨hca, hcb⟩ := hc; dsimp only at hca hcb; linarith)
    · unfold getDotColor
      rw [if_neg h5, if_neg (by linarith), if_neg (by linarith), if_pos (by linarith)]
      decide
  · refine ⟨⟨95, 100, "Extremely Warm", "bg-red-500", "text-red-600"⟩, by decide,
      ⟨lt_of_le_of_ne (not_lt.mp h95) (Ne.symm hb95), lt_of_le_of_ne h1 hb100⟩, ?_, ?_⟩
    · intro z' hz'
      simp only [ZONES, List.mem_cons, List.not_mem_nil, or_false] at hz'
      rcases hz' with h | h | h | h | h | h | h <;> subst h <;> intro hc <;>
        first
        | rfl
        | (exfalso; obtain ⟨hca, hcb⟩ := hc; dsimp only at hca hcb; linarith)
    · have h95' : 95 < p := lt_of_le_of_ne (not_lt.mp h95) (Ne.symm hb95)
      unfold getDotColor
      rw [if_neg h5, if_pos (by linarith)]
      decide

/-- Witness for C8 at p = 50: the dot color is the one corresponding to the
Normal zone. -/
theorem zones_agree_with_getDotColor_witness :
    getDotColor 50 = DOT_COLORS (zoneColorKey "Normal") := by
  obtain ⟨z, hz, hcont, huniq, hcol⟩ := zones_agree_with_getDotColor 50
    (by norm_num) (by norm_num)
    ⟨by norm_num, by norm_num, by norm_num, by norm_num,
     by norm_num, by norm_num, by norm_num, by norm_num⟩
  have hzn : z = ⟨35, 65, "Normal", "bg-neutral-200", "text-neutral-400"⟩ :=
    (huniq ⟨35, 65, "Normal", "bg-neutral-200", "text-neutral-400"⟩
      (by decide) (by decide)).symm
  rw [hcol, hzn]

/-! ## Severity display fallbacks (`src/unnamed/part_001`, `part_004`,
`part_007`) -/

/-- The `SEVERITY_LABELS` nested record of the home page
(`src/unnamed/part_001`): direction → severity → (label, className); a
missing key is JS `undefined`, modelled as `none`. -/
def SEVERITY_LABELS (direction severity : String) : Option (String × String) :=
  if direction = "cold" then
    if severity = "extreme" then some ("Extremely Cold", "text-blue-700 font-semibold")
    else if severity = "very_unusual" then some ("Very Cold", "text-blue-600 font-semibold")
    else if severity = "unusual" then some ("Unusually Cold", "text-blue-500 font-medium")
    else none
  else if direction = "warm" then
    if severity = "extreme" then some ("Extremely Warm", "text-red-700 font-semibold")
    else if severity = "very_unusual" then some ("Very Warm", "text-orange-600 font-semibold")
    else if severity = "unusual" then some ("Unusually Warm", "text-amber-600 font-medium")
    else none
  else none

/-- `getSeverityDisplay` of the home page (`src/unnamed/part_001`). -/
def getSeverityDisplay (severity direction : String) : String × String :=
  if severity = "normal" ∨ severity = "insufficient_data" then
    ("Normal", "text-neutral-400")
  else (SEVERITY_LABELS direction severity).getD ("Normal", "text-neutral-400")

/-- The `TODAY_SEVERITY_STYLES` nested record of the station page
(`src/unnamed/part_004`). -/
def TODAY_SEVERITY_STYLES (direction severity : String) :
    Option (String × String) :=
  if direction = "cold" then
    if severity = "extreme" then some ("Extremely Cold", "text-blue-700")
    else if severity = "unusual" then some ("Unusually Cold", "text-blue-600")
    else if severity = "a_bit" then some ("A Bit Colder", "text-blue-400")
    else none
  else if direction = "warm" then
    if severity = "extreme" then some ("Extremely Warm", "text-red-700")
    else if severity = "unusual" then some ("Unusually Warm", "text-orange-600")
    else if severity = "a_bit" then some ("A Bit Warmer", "text-amber-400")
    else none
  else none

/-- `getTodaySeverityDisplay` of the station page (`src/unnamed/part_004`). -/
def getTodaySeverityDisplay (insight : Insight) : String × String :=
  if insight.severity = "normal" ∨ insight.severity = "insufficient_data" then
    ("Near Normal", "text-neutral-500")
  else
    (TODAY_SEVERITY_STYLES (todayDirection insight) insight.severity).getD
      ("Near Normal", "text-neutral-500")

/-- The `SEVERITY_CONFIG` record of `SeverityBadge` (`src/unnamed/part_007`). -/
def SEVERITY_CONFIG (severity : String) : Option (String × String × String) :=
  if severity = "extreme" then some ("Extreme", "text-red-700", "bg-red-50")
  else if severity = "unusual" then some ("Unusual", "text-orange-700", "bg-orange-50")
  else if severity = "a_bit" then some ("A Bit", "text-amber-500", "bg-amber-50")
  else if severity = "normal" then some ("Normal", "text-neutral-600", "bg-neutral-50")
  else if severity = "insufficient_data" then
    some ("Insufficient Data", "text-neutral-400", "bg-neutral-50")
  else none

/-- The config picked by `SeverityBadge` (`src/unnamed/part_007`):
`SEVERITY_CONFIG[severity] ?? SEVERITY_CONFIG.normal` (the inner default is
never reached, since the `normal` key is present). -/
def severityBadgeConfig (severity : String) : String × String × String :=
  (SEVERITY_CONFIG severity).getD
    ((SEVERITY_CONFIG "normal").getD ("Normal", "text-neutral-600", "bg-neutral-50"))

/-- C10: For every severity string and direction string, including values
outside the documented severity set, the severity display functions return a
defined label and style, falling back to the Normal display for unrecognized
severity/direction combinations rather than producing an undefined result. -/
theorem severity_displays_fall_back_to_normal (severity direction : String)
    (percentile : Option ℚ) (wd : ℕ) :
    (SEVERITY_LABELS direction severity = none →
      getSeverityDisplay severity direction = ("Normal", "text-neutral-400"))
    ∧ (TODAY_SEVERITY_STYLES (todayDirection ⟨severity, percentile, wd⟩) severity = none →
      getTodaySeverityDisplay ⟨severity, percentile, wd⟩ =
        ("Near Normal", "text-neutral-500"))
    ∧ (SEVERITY_CONFIG severity = none →
      severityBadgeConfig severity = ("Normal", "text-neutral-600", "bg-neutral-50")) := by
  refine ⟨?_, ?_, ?_⟩
  · intro h
    simp only [getSeverityDisplay, h, Option.getD_none]
    split_ifs <;> rfl
  · intro h
    simp only [getTodaySeverityDisplay, h, Option.getD_none]
    split_ifs <;> rfl
  · intro h
    simp only [severityBadgeConfig, h, Option.getD_none]
    decide

/-- Witness for C10 on severity "bogus" and direction "sideways". -/
theorem severity_displays_fall_back_to_normal_witness :
    getSeverityDisplay "bogus" "sideways" = ("Normal", "text-neutral-400")
    ∧ getTodaySeverityDisplay ⟨"bogus", none, 0⟩ = ("Near Normal", "text-neutral-500")
    ∧ severityBadgeConfig "bogus" = ("Normal", "text-neutral-600", "bg-neutral-50") := by
  have h := severity_displays_fall_back_to_normal "bogus" "sideways" none 0
  exact ⟨h.1 (by decide), h.2.1 (by decide), h.2.2 (by decide)⟩

end ExtremeTemps
